import Mathlib

/-!
Verification of the catalog / shopping-cart module (`Cart.py`).

The Python classes are shallowly embedded:
* `Product` is a structure; the `PhysicalProduct` / `DigitalProduct`
  subclasses are modelled by the `variant` field.
* Python `dict`s (insertion-ordered, unique keys) are association lists
  `List (String × α)` with `dictGet` / `dictInsert` / `dictRemove`
  mirroring `d.get`, `d[k] = v` and `d.pop`.
* A `CartItem` holds a reference to the `Product` object owned by the catalog; since
  the catalog owns every product, this aliasing is modelled by storing the
  `product_id` and `quantity` and resolving the product through the
  catalog on every access.
* `json.load` input is modelled by record structures whose fields are
  `Option`s (a JSON object may lack any key); a `TypeError` raised by a
  constructor call with missing required arguments is an `Except.error`.
Machine integers are `Int` (Python ints are unbounded); prices are `ℚ`.
-/

namespace Cart

/-- Discriminates the three product classes: `Product` (base),
`PhysicalProduct` (adds `weight`), `DigitalProduct` (adds `download_link`). -/
inductive ProductVariant where
  | base : ProductVariant
  | physical (weight : ℚ) : ProductVariant
  | digital (download_link : String) : ProductVariant
deriving DecidableEq

/-- The `Product` class (Cart.py lines 5-52): identity, name, price and the
mutable stock count `quantity_available`. Subclass-specific data lives in
`variant`. -/
structure Product where
  product_id : String
  name : String
  price : ℚ
  quantity_available : Int
  variant : ProductVariant
deriving DecidableEq

/-- `Product.decrease_quantity` (lines 33-37): deducts `amount` and returns
`True` when `0 < amount <= quantity_available`; otherwise returns `False`
and leaves the product untouched. -/
def decrease_quantity (p : Product) (amount : Int) : Product × Bool :=
  if 0 < amount ∧ amount ≤ p.quantity_available then
    ({ p with quantity_available := p.quantity_available - amount }, true)
  else
    (p, false)

/-- `Product.increase_quantity` (lines 39-40): adds `amount` unconditionally,
with no sign or bound check. -/
def increase_quantity (p : Product) (amount : Int) : Product :=
  { p with quantity_available := p.quantity_available + amount }

/-- The `CartItem.quantity` setter (lines 104-107): the assignment is
silently ignored when the new value is negative. -/
def quantitySet (current value : Int) : Int :=
  if 0 ≤ value then value else current

/-- `CartItem.calculate_subtotal` (lines 109-110): `price * quantity`,
recomputed on demand. -/
def calculate_subtotal (price : ℚ) (quantity : Int) : ℚ :=
  price * quantity

/-- Python `dict.get`: the value stored under `k`, if any. -/
def dictGet {α : Type} (m : List (String × α)) (k : String) : Option α :=
  match m with
  | [] => none
  | (k', v) :: rest => if k' = k then some v else dictGet rest k

/-- Python `d[k] = v`: replaces the value in place when the key exists
(keeping its position), otherwise appends at the end. -/
def dictInsert {α : Type} (m : List (String × α)) (k : String) (v : α) :
    List (String × α) :=
  match m with
  | [] => [(k, v)]
  | (k', v') :: rest =>
    if k' = k then (k, v) :: rest else (k', v') :: dictInsert rest k v

/-- Python `d.pop(k)`: drops the entry stored under `k`. -/
def dictRemove {α : Type} (m : List (String × α)) (k : String) :
    List (String × α) :=
  match m with
  | [] => []
  | (k', v') :: rest =>
    if k' = k then rest else (k', v') :: dictRemove rest k

/-- The mutable state of a `ShoppingCart` (lines 119-125): `_catalog` maps
product ids to products, `_items` maps product ids to the quantity of the
`CartItem` stored there (the product reference of the item is the catalog entry
under the same key). File paths play no role in the state model. -/
structure ShoppingCart where
  catalog : List (String × Product)
  items : List (String × Int)
deriving DecidableEq

/-- `ShoppingCart.add_item` (lines 170-183). Fails when the product id is
unknown or `decrease_quantity` fails; otherwise deducts stock and creates
the `CartItem`, or bumps the quantity of an existing item through its setter. -/
def add_item (s : ShoppingCart) (product_id : String) (quantity : Int) :
    ShoppingCart × Bool :=
  match dictGet s.catalog product_id with
  | none => (s, false)
  | some product =>
    match decrease_quantity product quantity with
    | (product', true) =>
      let items' :=
        match dictGet s.items product_id with
        | some q0 => dictInsert s.items product_id (quantitySet q0 (q0 + quantity))
        | none => dictInsert s.items product_id quantity
      ({ catalog := dictInsert s.catalog product_id product', items := items' }, true)
    | (_, false) => (s, false)

/-- `ShoppingCart.remove_item` (lines 185-191). Pops the item and restores
its full quantity to the referenced product. The product reference of the item
is resolved through the catalog; the `none` catalog branch is unreachable
for states built by the service, which only creates items for catalog
products. -/
def remove_item (s : ShoppingCart) (product_id : String) :
    ShoppingCart × Bool :=
  match dictGet s.items product_id with
  | none => (s, false)
  | some q =>
    match dictGet s.catalog product_id with
    | some p =>
      ({ catalog := dictInsert s.catalog product_id (increase_quantity p q),
         items := dictRemove s.items product_id }, true)
    | none => ({ s with items := dictRemove s.items product_id }, true)

/-- `ShoppingCart.update_quantity` (lines 193-208). `diff > 0` deducts the
difference (failing on insufficient stock); `diff < 0` restores `-diff`
units and assigns through the quantity setter; `diff == 0` returns `False`.
As in `remove_item`, the catalog `none` branches are unreachable for
service-built states. -/
def update_quantity (s : ShoppingCart) (product_id : String) (new_quantity : Int) :
    ShoppingCart × Bool :=
  match dictGet s.items product_id with
  | none => (s, false)
  | some q0 =>
    let diff := new_quantity - q0
    if 0 < diff then
      match dictGet s.catalog product_id with
      | some p =>
        match decrease_quantity p diff with
        | (p', true) =>
          ({ catalog := dictInsert s.catalog product_id p',
             items := dictInsert s.items product_id (quantitySet q0 new_quantity) }, true)
        | (_, false) => (s, false)
      | none => (s, false)
    else if diff < 0 then
      match dictGet s.catalog product_id with
      | some p =>
        ({ catalog := dictInsert s.catalog product_id (increase_quantity p (-diff)),
           items := dictInsert s.items product_id (quantitySet q0 new_quantity) }, true)
      | none =>
        ({ s with items := dictInsert s.items product_id (quantitySet q0 new_quantity) }, true)
    else (s, false)

/-- `ShoppingCart.get_total` (lines 210-211): the sum of the
`calculate_subtotal()` of every item, recomputed on each call. -/
def get_total (s : ShoppingCart) : ℚ :=
  (s.items.map (fun it =>
    match dictGet s.catalog it.1 with
    | some p => calculate_subtotal p.price it.2
    | none => 0)).sum

/-- One record of the cart state file: `CartItem.to_dict` output
(lines 115-116), `{product_id, quantity}`. -/
structure CartRecord where
  product_id : String
  quantity : Int
deriving DecidableEq

/-- `ShoppingCart._save_cart_state` (lines 166-168): serializes the
`{product_id, quantity}` pair of every item in iteration order. -/
def save_cart_state (items : List (String × Int)) : List CartRecord :=
  items.map (fun it => { product_id := it.1, quantity := it.2 })

/-- One iteration of the `_load_cart_state` loop (lines 158-162): look the
product up in the catalog; if absent skip the record, otherwise store a
`CartItem` and call `decrease_quantity` on the product (its result is
discarded). -/
def loadCartStep (st : List (String × Product) × List (String × Int))
    (r : CartRecord) : List (String × Product) × List (String × Int) :=
  match dictGet st.1 r.product_id with
  | none => st
  | some prod =>
    (dictInsert st.1 r.product_id (decrease_quantity prod r.quantity).1,
     dictInsert st.2 r.product_id r.quantity)

/-- `ShoppingCart._load_cart_state` (lines 154-164) on already-parsed file
contents, threading the catalog and the items dict through the loop. -/
def load_cart_state (catalog : List (String × Product))
    (items : List (String × Int)) (cart_data : List CartRecord) :
    List (String × Product) × List (String × Int) :=
  cart_data.foldl loadCartStep (catalog, items)

/-- One record of the catalog file: a JSON object that may lack any key
(`Option` fields), cf. lines 132-145. -/
structure CatalogRecord where
  type : Option String
  product_id : Option String
  name : Option String
  price : Option ℚ
  quantity_available : Option Int
  weight : Option ℚ
  download_link : Option String
deriving DecidableEq

/-- The constructor dispatch of `_load_catalog` (lines 136-144): choose the
class by the `type` key (default `"base"`), pass through exactly the keys
that class recognizes and are present. A missing required constructor
argument raises `TypeError` (uncaught in the source), modelled as
`Except.error`. `product_id` was checked present by the caller. -/
def constructProduct (pid : String) (item : CatalogRecord) : Except String Product :=
  let item_type := item.type.getD "base"
  if item_type = "physical" then
    match item.name, item.price, item.quantity_available, item.weight with
    | some nm, some pr, some qa, some w =>
      .ok ⟨pid, nm, pr, qa, ProductVariant.physical w⟩
    | _, _, _, _ => .error "TypeError: missing PhysicalProduct argument"
  else if item_type = "digital" then
    match item.name, item.price, item.quantity_available, item.download_link with
    | some nm, some pr, some qa, some dl =>
      .ok ⟨pid, nm, pr, qa, ProductVariant.digital dl⟩
    | _, _, _, _ => .error "TypeError: missing DigitalProduct argument"
  else
    match item.name, item.price, item.quantity_available with
    | some nm, some pr, some qa =>
      .ok ⟨pid, nm, pr, qa, ProductVariant.base⟩
    | _, _, _ => .error "TypeError: missing Product argument"

/-- The `_load_catalog` record loop (lines 131-146): a record without
`product_id` is skipped (with a printed diagnostic); otherwise the product
is constructed and stored under its id, and a constructor `TypeError`
aborts the whole load. -/
def loadCatalogAux (catalog : List (String × Product))
    (data : List CatalogRecord) : Except String (List (String × Product)) :=
  match data with
  | [] => .ok catalog
  | item :: rest =>
    match item.product_id with
    | none => loadCatalogAux catalog rest
    | some pid =>
      match constructProduct pid item with
      | .error e => .error e
      | .ok prod => loadCatalogAux (dictInsert catalog pid prod) rest

/-- `ShoppingCart._load_catalog` (lines 127-148) on already-parsed file
contents, starting from the empty catalog. -/
def loadCatalog (data : List CatalogRecord) :
    Except String (List (String × Product)) :=
  loadCatalogAux [] data

/-- A single stock mutation through the `Product` API: an
`increase_quantity` or a `decrease_quantity` call. -/
inductive StockOp where
  | inc (amount : Int)
  | dec (amount : Int)
deriving DecidableEq

/-- Applies one stock mutation to a product. -/
def applyStockOp (p : Product) : StockOp → Product
  | StockOp.inc a => increase_quantity p a
  | StockOp.dec a => (decrease_quantity p a).1

/-- Applies a sequence of stock mutations in order. -/
def applyStockOps (p : Product) (ops : List StockOp) : Product :=
  ops.foldl applyStockOp p


/-! ### Association-list (Python dict) lemmas -/

theorem dictGet_insert_self {α : Type} (m : List (String × α)) (k : String) (v : α) :
    dictGet (dictInsert m k v) k = some v := by
  induction m with
  | nil => simp [dictInsert, dictGet]
  | cons hd tl ih =>
    obtain ⟨k0, v0⟩ := hd
    by_cases h : k0 = k
    · subst h
      simp [dictInsert, dictGet]
    · simp [dictInsert, dictGet, h, ih]

theorem dictGet_insert_ne {α : Type} (m : List (String × α)) {k k' : String}
    (v : α) (h : k ≠ k') :
    dictGet (dictInsert m k v) k' = dictGet m k' := by
  induction m with
  | nil => simp [dictInsert, dictGet, h]
  | cons hd tl ih =>
    obtain ⟨k0, v0⟩ := hd
    by_cases h0 : k0 = k
    · subst h0
      simp [dictInsert, dictGet, h]
    · simp [dictInsert, dictGet, h0, ih]

theorem dictInsert_of_get_none {α : Type} (m : List (String × α)) {k : String}
    (v : α) (h : dictGet m k = none) : dictInsert m k v = m ++ [(k, v)] := by
  induction m with
  | nil => simp [dictInsert]
  | cons hd tl ih =>
    obtain ⟨k0, v0⟩ := hd
    by_cases h0 : k0 = k
    · subst h0
      simp [dictGet] at h
    · rw [dictGet] at h
      simp only [h0, if_false] at h
      simp [dictInsert, h0, ih h]

/-- When `0 ≤ q ≤ stock`, a `decrease_quantity` call leaves the stock at
`stock - q` whether it succeeds (`0 < q`) or fails (`q = 0`, deducting
nothing). -/
theorem decrease_quantity_of_le (p : Product) (q : Int) (h0 : 0 ≤ q)
    (h1 : q ≤ p.quantity_available) :
    (decrease_quantity p q).1 =
      { p with quantity_available := p.quantity_available - q } := by
  unfold decrease_quantity
  by_cases hq : 0 < q
  · simp [hq, h1]
  · have hq0 : q = 0 := le_antisymm (not_lt.mp hq) h0
    subst hq0
    simp

/-! ### Claim theorems -/

/-- Claim C2 (confirmed): `decrease_quantity(amount)` succeeds and deducts
`amount` exactly when `0 < amount <= quantity_available`; in every other
case (including every `amount <= 0`) it returns failure and leaves the
product, in particular `quantity_available`, unchanged. -/
theorem decrease_quantity_spec (p : Product) (amount : Int) :
    ((decrease_quantity p amount).2 = true ↔
      0 < amount ∧ amount ≤ p.quantity_available) ∧
    ((decrease_quantity p amount).2 = true →
      (decrease_quantity p amount).1 =
        { p with quantity_available := p.quantity_available - amount }) ∧
    ((decrease_quantity p amount).2 = false →
      (decrease_quantity p amount).1 = p) := by
  unfold decrease_quantity
  by_cases h : 0 < amount ∧ amount ≤ p.quantity_available
  · simp [h]
  · simp [h]

/-- Claim C2 witness: at stock 10, `decrease_quantity 3` succeeds and the
failure branch is vacuous. -/
theorem decrease_quantity_spec_witness :
    (decrease_quantity ⟨"P1", "W", 5, 10, ProductVariant.base⟩ 3).2 = true ∧
    (decrease_quantity ⟨"P1", "W", 5, 10, ProductVariant.base⟩ 3).1 =
      ⟨"P1", "W", 5, 7, ProductVariant.base⟩ :=
  ⟨(decrease_quantity_spec ⟨"P1", "W", 5, 10, ProductVariant.base⟩ 3).1.mpr
      (by decide),
    by
      have h := (decrease_quantity_spec ⟨"P1", "W", 5, 10, ProductVariant.base⟩ 3).2.1
        ((decrease_quantity_spec ⟨"P1", "W", 5, 10, ProductVariant.base⟩ 3).1.mpr (by decide))
      simpa using h⟩

/-- Claim C1 counterexample: from non-negative stock 0, the single call
`increase_quantity (-1)` drives `quantity_available` negative, so the
invariant fails for arbitrary integer amounts. -/
theorem stock_negative_counterexample :
    0 ≤ (⟨"P1", "W", 5, 0, ProductVariant.base⟩ : Product).quantity_available ∧
    (applyStockOps ⟨"P1", "W", 5, 0, ProductVariant.base⟩
       [StockOp.inc (-1)]).quantity_available < 0 := by
  decide

/-- Claim C1 (amended): starting from non-negative stock, any sequence of
`decrease_quantity` calls with arbitrary integer amounts and
`increase_quantity` calls with non-negative amounts keeps
`quantity_available` non-negative. -/
theorem stock_nonneg_invariant (p : Product) (ops : List StockOp)
    (h0 : 0 ≤ p.quantity_available)
    (hinc : ∀ a, StockOp.inc a ∈ ops → 0 ≤ a) :
    0 ≤ (applyStockOps p ops).quantity_available := by
  induction ops generalizing p with
  | nil => simpa [applyStockOps] using h0
  | cons op rest ih =>
    have hstep : 0 ≤ (applyStockOp p op).quantity_available := by
      cases op with
      | inc a =>
        have ha := hinc a (List.mem_cons_self _ _)
        simp only [applyStockOp, increase_quantity]
        omega
      | dec a =>
        simp only [applyStockOp]
        unfold decrease_quantity
        by_cases hg : 0 < a ∧ a ≤ p.quantity_available
        · rw [if_pos hg]
          show 0 ≤ p.quantity_available - a
          omega
        · rw [if_neg hg]
          exact h0
    have hrest : ∀ a, StockOp.inc a ∈ rest → 0 ≤ a := fun a ha =>
      hinc a (List.mem_cons_of_mem _ ha)
    have := ih (applyStockOp p op) hstep hrest
    simpa [applyStockOps, List.foldl_cons] using this

/-- Claim C1 witness: a concrete increase-then-decrease sequence from
stock 2 stays non-negative. -/
theorem stock_nonneg_invariant_witness :
    0 ≤ (applyStockOps ⟨"P1", "W", 5, 2, ProductVariant.base⟩
      [StockOp.inc 3, StockOp.dec 4]).quantity_available :=
  stock_nonneg_invariant ⟨"P1", "W", 5, 2, ProductVariant.base⟩
    [StockOp.inc 3, StockOp.dec 4] (by decide)
    (by
      intro a ha
      simp at ha
      omega)

/-- Claim C6 (confirmed): `update_quantity` with the current quantity
(`diff == 0`) returns `false` and changes nothing. -/
theorem update_quantity_zero_diff (s : ShoppingCart) (product_id : String)
    (q0 : Int) (h : dictGet s.items product_id = some q0) :
    update_quantity s product_id q0 = (s, false) := by
  unfold update_quantity
  rw [h]
  simp

/-- Claim C6 witness: setting quantity 2 again on a cart holding 2 of `P1`
fails and leaves the state intact. -/
theorem update_quantity_zero_diff_witness :
    update_quantity
      ⟨[("P1", ⟨"P1", "W", 5, 10, ProductVariant.base⟩)], [("P1", 2)]⟩ "P1" 2 =
      (⟨[("P1", ⟨"P1", "W", 5, 10, ProductVariant.base⟩)], [("P1", 2)]⟩, false) :=
  update_quantity_zero_diff
    ⟨[("P1", ⟨"P1", "W", 5, 10, ProductVariant.base⟩)], [("P1", 2)]⟩ "P1" 2
    (by decide)

/-- Claim C9 (confirmed): `add_item` for a product present in the catalog
with `quantity <= 0` returns `false` and leaves the whole state (cart and
stock) unchanged. -/
theorem add_item_nonpositive_fails (s : ShoppingCart) (product_id : String)
    (p : Product) (quantity : Int)
    (hcat : dictGet s.catalog product_id = some p) (hq : quantity ≤ 0) :
    add_item s product_id quantity = (s, false) := by
  have hdec : decrease_quantity p quantity = (p, false) := by
    unfold decrease_quantity
    have : ¬(0 < quantity ∧ quantity ≤ p.quantity_available) := by
      intro hc
      omega
    simp [this]
  simp [add_item, hcat, hdec]

/-- Claim C9 witness: adding 0 units of a known product fails without any
state change. -/
theorem add_item_nonpositive_fails_witness :
    add_item ⟨[("P1", ⟨"P1", "W", 5, 10, ProductVariant.base⟩)], []⟩ "P1" 0 =
      (⟨[("P1", ⟨"P1", "W", 5, 10, ProductVariant.base⟩)], []⟩, false) :=
  add_item_nonpositive_fails
    ⟨[("P1", ⟨"P1", "W", 5, 10, ProductVariant.base⟩)], []⟩ "P1"
    ⟨"P1", "W", 5, 10, ProductVariant.base⟩ 0 (by decide) (by decide)

/-- Claim C5 counterexample: with 5 of `P1` in the cart, the call
`update_quantity "P1" (-1)` succeeds, yet the quantity-setter silently
ignores the negative value, so the quantity stays 5 instead of -1. -/
theorem update_quantity_negative_counterexample :
    (update_quantity ⟨[("P1", ⟨"P1", "W", 5, 3, ProductVariant.base⟩)],
        [("P1", 5)]⟩ "P1" (-1)).2 = true ∧
    dictGet (update_quantity ⟨[("P1", ⟨"P1", "W", 5, 3, ProductVariant.base⟩)],
        [("P1", 5)]⟩ "P1" (-1)).1.items "P1" = some 5 ∧
    (5 : Int) ≠ -1 := by
  decide

/-- Claim C5 (amended): for an item in the cart and `0 ≤ new_quantity <
current quantity` (`diff < 0`), `update_quantity` always succeeds, restores
`-diff` units to the stock of the product, and sets the quantity of the
item to `new_quantity`; a negative `new_quantity` still succeeds and
restores stock but leaves the quantity of the item unchanged, because the
quantity setter silently ignores negative values. -/
theorem update_quantity_decrease_spec (s : ShoppingCart) (product_id : String)
    (q0 new_quantity : Int) (p : Product)
    (hitem : dictGet s.items product_id = some q0)
    (hcat : dictGet s.catalog product_id = some p)
    (hnn : 0 ≤ new_quantity) (hlt : new_quantity < q0) :
    update_quantity s product_id new_quantity =
      ({ catalog := dictInsert s.catalog product_id
           { p with quantity_available :=
               p.quantity_available + (q0 - new_quantity) },
         items := dictInsert s.items product_id new_quantity }, true) := by
  have hd1 : ¬(0 < new_quantity - q0) := by omega
  have hd2 : new_quantity - q0 < 0 := by omega
  have harith : p.quantity_available + -(new_quantity - q0) =
      p.quantity_available + (q0 - new_quantity) := by ring
  simp only [update_quantity, hitem, hcat, hd1, hd2, if_false, if_true,
    increase_quantity, quantitySet, hnn, if_pos, harith]

/-- Claim C5 witness: updating an item holding 5 down to 2 succeeds,
restores 3 units of stock, and sets the quantity to 2. -/
theorem update_quantity_decrease_spec_witness :
    update_quantity
      ⟨[("P1", ⟨"P1", "W", 5, 3, ProductVariant.base⟩)], [("P1", 5)]⟩ "P1" 2 =
      (⟨[("P1", ⟨"P1", "W", 5, 6, ProductVariant.base⟩)], [("P1", 2)]⟩, true) := by
  have h := update_quantity_decrease_spec
    ⟨[("P1", ⟨"P1", "W", 5, 3, ProductVariant.base⟩)], [("P1", 5)]⟩ "P1" 5 2
    ⟨"P1", "W", 5, 3, ProductVariant.base⟩ (by decide) (by decide)
    (by decide) (by decide)
  rw [h]
  decide

/-- Claim C4 counterexample: with 2 of `P1` already in the cart (stock 8),
a successful `add_item "P1" 3` followed by `remove_item "P1"` leaves stock
at 10, not the pre-add value 8: `remove_item` restores the whole item
quantity, not only the amount just added. -/
theorem add_remove_counterexample :
    (add_item ⟨[("P1", ⟨"P1", "W", 5, 8, ProductVariant.base⟩)],
        [("P1", 2)]⟩ "P1" 3).2 = true ∧
    (dictGet (remove_item
        (add_item ⟨[("P1", ⟨"P1", "W", 5, 8, ProductVariant.base⟩)],
          [("P1", 2)]⟩ "P1" 3).1 "P1").1.catalog "P1").map
        Product.quantity_available = some 10 ∧
    (dictGet (⟨[("P1", ⟨"P1", "W", 5, 8, ProductVariant.base⟩)],
        [("P1", 2)]⟩ : ShoppingCart).catalog "P1").map
        Product.quantity_available = some 8 ∧
    (10 : Int) ≠ 8 := by
  decide

/-- Claim C4 (amended): when the product is not already in the cart, a
successful `add_item` followed immediately by `remove_item` restores
`quantity_available` exactly to its value before the `add_item` call. -/
theorem add_then_remove_restores_stock (s : ShoppingCart) (product_id : String)
    (quantity : Int)
    (hnew : dictGet s.items product_id = none)
    (hadd : (add_item s product_id quantity).2 = true) :
    (remove_item (add_item s product_id quantity).1 product_id).2 = true ∧
    (dictGet (remove_item (add_item s product_id quantity).1
        product_id).1.catalog product_id).map Product.quantity_available =
      (dictGet s.catalog product_id).map Product.quantity_available := by
  cases hcat : dictGet s.catalog product_id with
  | none =>
    rw [show add_item s product_id quantity = (s, false) by
      simp [add_item, hcat]] at hadd
    simp at hadd
  | some p =>
    by_cases hg : 0 < quantity ∧ quantity ≤ p.quantity_available
    · have hdec : decrease_quantity p quantity =
          ({ p with quantity_available := p.quantity_available - quantity },
            true) := by
        simp [decrease_quantity, hg]
      have hs1 : (add_item s product_id quantity).1 =
          { catalog := dictInsert s.catalog product_id
              { p with quantity_available := p.quantity_available - quantity },
            items := dictInsert s.items product_id quantity } := by
        simp [add_item, hcat, hdec, hnew]
      rw [hs1]
      have hi : dictGet (dictInsert s.items product_id quantity) product_id =
          some quantity := dictGet_insert_self _ _ _
      have hc : dictGet (dictInsert s.catalog product_id
          { p with quantity_available := p.quantity_available - quantity })
          product_id = some { p with quantity_available :=
            p.quantity_available - quantity } := dictGet_insert_self _ _ _
      constructor
      · simp [remove_item, hi, hc]
      · simp only [remove_item, hi, hc]
        rw [dictGet_insert_self]
        simp [increase_quantity]
    · have hdec : decrease_quantity p quantity = (p, false) := by
        simp [decrease_quantity, hg]
      rw [show add_item s product_id quantity = (s, false) by
        simp [add_item, hcat, hdec]] at hadd
      simp at hadd

/-- Claim C4 witness: adding 4 of `P1` to an empty cart (stock 10) and
removing it again returns the stock to 10. -/
theorem add_then_remove_restores_stock_witness :
    (remove_item (add_item ⟨[("P1", ⟨"P1", "W", 5, 10, ProductVariant.base⟩)],
        []⟩ "P1" 4).1 "P1").2 = true ∧
    (dictGet (remove_item
        (add_item ⟨[("P1", ⟨"P1", "W", 5, 10, ProductVariant.base⟩)],
          []⟩ "P1" 4).1 "P1").1.catalog "P1").map Product.quantity_available =
      (dictGet (⟨[("P1", ⟨"P1", "W", 5, 10, ProductVariant.base⟩)],
        []⟩ : ShoppingCart).catalog "P1").map Product.quantity_available :=
  add_then_remove_restores_stock
    ⟨[("P1", ⟨"P1", "W", 5, 10, ProductVariant.base⟩)], []⟩ "P1" 4
    (by decide) (by decide)

/-- Claim C8 (confirmed): `get_total` equals the sum over all current cart
items of the price of the product times the item quantity; since this
holds of every state, the value is recomputed fresh from the current items
and is never stale after a mutation. -/
theorem get_total_spec (s : ShoppingCart) :
    get_total s =
      (s.items.map (fun it =>
        (match dictGet s.catalog it.1 with
         | some p => p.price
         | none => 0) * (it.2 : ℚ))).sum := by
  unfold get_total
  have h : ∀ it : String × Int,
      (match dictGet s.catalog it.1 with
       | some p => calculate_subtotal p.price it.2
       | none => (0 : ℚ)) =
      (match dictGet s.catalog it.1 with
       | some p => p.price
       | none => 0) * (it.2 : ℚ) := by
    intro it
    cases dictGet s.catalog it.1 <;> simp [calculate_subtotal]
  simp only [h]

/-- Claim C10 (confirmed): a record whose `type` field holds any value
other than `"physical"` or `"digital"` is dispatched to the base `Product`
constructor, exactly as if the type were `"base"`; the unrecognized
discriminator itself never rejects the record. -/
theorem unknown_type_constructs_base (pid : String) (r : CatalogRecord)
    (t : String) (ht : r.type = some t) (h1 : t ≠ "physical")
    (h2 : t ≠ "digital") :
    constructProduct pid r = constructProduct pid { r with type := some "base" } ∧
    ∀ p, constructProduct pid r = Except.ok p → p.variant = ProductVariant.base := by
  have hb1 : ("base" : String) ≠ "physical" := by decide
  have hb2 : ("base" : String) ≠ "digital" := by decide
  constructor
  · simp [constructProduct, ht, h1, h2, hb1, hb2]
  · intro p hp
    simp only [constructProduct, ht, Option.getD_some, h1, h2, if_false,
      if_neg] at hp
    cases hn : r.name <;> cases hpr : r.price <;>
      cases hqa : r.quantity_available <;> simp [hn, hpr, hqa] at hp
    rw [← hp]

/-- Claim C10 witness: a record tagged `"subscription"` constructs the same
product as the `"base"`-tagged record. -/
theorem unknown_type_constructs_base_witness :
    constructProduct "P9"
        ⟨some "subscription", some "P9", some "N", some 1, some 2, none, none⟩ =
      constructProduct "P9"
        ⟨some "base", some "P9", some "N", some 1, some 2, none, none⟩ :=
  (unknown_type_constructs_base "P9"
    ⟨some "subscription", some "P9", some "N", some 1, some 2, none, none⟩
    "subscription" rfl (by decide) (by decide)).1

/-- Claim C7 (confirmed): the catalog loader skips any record lacking
`product_id` and still processes every remaining record, so such a record
never aborts the load; in particular a file with one record missing
`product_id` and two valid records yields exactly the two valid products. -/
theorem load_catalog_skips_missing_id :
    (∀ (catalog : List (String × Product)) (pre post : List CatalogRecord)
        (r : CatalogRecord), r.product_id = none →
        loadCatalogAux catalog (pre ++ r :: post) =
          loadCatalogAux catalog (pre ++ post)) ∧
    loadCatalog
        [⟨none, none, some "Bad", some 1, some 1, none, none⟩,
         ⟨none, some "P1", some "A", some 2, some 3, none, none⟩,
         ⟨none, some "P2", some "B", some 4, some 5, none, none⟩] =
      Except.ok
        [("P1", ⟨"P1", "A", 2, 3, ProductVariant.base⟩),
         ("P2", ⟨"P2", "B", 4, 5, ProductVariant.base⟩)] := by
  constructor
  · intro catalog pre post r hr
    induction pre generalizing catalog with
    | nil =>
      simp only [List.nil_append]
      rw [loadCatalogAux, hr]
    | cons hd tl ih =>
      simp only [List.cons_append]
      cases hh : hd.product_id with
      | none =>
        simp only [loadCatalogAux, hh]
        exact ih catalog
      | some pid =>
        cases hc : constructProduct pid hd with
        | error e => simp [loadCatalogAux, hh, hc]
        | ok prod =>
          simp only [loadCatalogAux, hh, hc]
          exact ih _
  · rfl

/-- Claim C7 witness: skipping the id-less record in front of one valid
record is the same load as without it. -/
theorem load_catalog_skips_missing_id_witness :
    loadCatalogAux []
        ([] ++ ⟨none, none, some "Bad", some 1, some 1, none, none⟩ ::
          [⟨none, some "P1", some "A", some 2, some 3, none, none⟩]) =
      loadCatalogAux []
        ([] ++ [⟨none, some "P1", some "A", some 2, some 3, none, none⟩]) :=
  load_catalog_skips_missing_id.1 [] []
    [⟨none, some "P1", some "A", some 2, some 3, none, none⟩]
    ⟨none, none, some "Bad", some 1, some 1, none, none⟩ rfl

/-- Core reconciliation lemma for `_load_cart_state`: over records with
distinct ids, ids fresh for the current items dict, and quantities `q` with
`0 ≤ q ≤` the available stock of their product, the loop appends every
record to the items dict, deducts each quantity from its product, and
leaves every other catalog entry alone. -/
theorem load_aux_spec (records : List CartRecord) :
    ∀ (catalog : List (String × Product)) (items : List (String × Int)),
    (records.map CartRecord.product_id).Nodup →
    (∀ r ∈ records, dictGet items r.product_id = none) →
    (∀ r ∈ records, ∃ p, dictGet catalog r.product_id = some p ∧
        0 ≤ r.quantity ∧ r.quantity ≤ p.quantity_available) →
    (load_cart_state catalog items records).2 =
        items ++ records.map (fun r => (r.product_id, r.quantity)) ∧
    (∀ r ∈ records, ∀ p, dictGet catalog r.product_id = some p →
        dictGet (load_cart_state catalog items records).1 r.product_id =
          some { p with quantity_available := p.quantity_available - r.quantity }) ∧
    (∀ k, (∀ r ∈ records, r.product_id ≠ k) →
        dictGet (load_cart_state catalog items records).1 k = dictGet catalog k) := by
  induction records with
  | nil =>
    intro catalog items _ _ _
    refine ⟨by simp [load_cart_state], by simp, fun k _ => rfl⟩
  | cons r rest ih =>
    intro catalog items hnd hitems hok
    simp only [List.map_cons, List.nodup_cons] at hnd
    obtain ⟨hnotin, hndrest⟩ := hnd
    obtain ⟨p, hp, hq0, hqle⟩ := hok r (List.mem_cons_self _ _)
    have hne : ∀ r' ∈ rest, r'.product_id ≠ r.product_id := by
      intro r' hr' heq
      exact hnotin (heq ▸ List.mem_map_of_mem CartRecord.product_id hr')
    have hstep : loadCartStep (catalog, items) r =
        (dictInsert catalog r.product_id
            { p with quantity_available := p.quantity_available - r.quantity },
          dictInsert items r.product_id r.quantity) := by
      simp only [loadCartStep, hp]
      rw [decrease_quantity_of_le p r.quantity hq0 hqle]
    have hunfold : load_cart_state catalog items (r :: rest) =
        load_cart_state
          (dictInsert catalog r.product_id
            { p with quantity_available := p.quantity_available - r.quantity })
          (dictInsert items r.product_id r.quantity) rest := by
      simp only [load_cart_state, List.foldl_cons, hstep]
    have hitems' : ∀ r' ∈ rest,
        dictGet (dictInsert items r.product_id r.quantity) r'.product_id = none := by
      intro r' hr'
      rw [dictGet_insert_ne _ _ (fun h => hne r' hr' h.symm)]
      exact hitems r' (List.mem_cons_of_mem _ hr')
    have hcat' : ∀ r' ∈ rest, ∃ p', dictGet (dictInsert catalog r.product_id
        { p with quantity_available := p.quantity_available - r.quantity })
        r'.product_id = some p' ∧ 0 ≤ r'.quantity ∧
        r'.quantity ≤ p'.quantity_available := by
      intro r' hr'
      obtain ⟨p', hp', h1, h2⟩ := hok r' (List.mem_cons_of_mem _ hr')
      refine ⟨p', ?_, h1, h2⟩
      rw [dictGet_insert_ne _ _ (fun h => hne r' hr' h.symm)]
      exact hp'
    obtain ⟨ih1, ih2, ih3⟩ := ih _ _ hndrest hitems' hcat'
    refine ⟨?_, ?_, ?_⟩
    · rw [hunfold, ih1,
        dictInsert_of_get_none items r.quantity (hitems r (List.mem_cons_self _ _))]
      simp [List.append_assoc]
    · intro r' hr' p'' hp''
      rcases List.mem_cons.mp hr' with heq | hmem
      · rw [heq] at hp'' ⊢
        rw [hp] at hp''
        injection hp'' with hpp
        subst hpp
        rw [hunfold, ih3 r.product_id hne]
        exact dictGet_insert_self _ _ _
      · rw [hunfold]
        refine ih2 r' hmem p'' ?_
        rw [dictGet_insert_ne _ _ (fun h => hne r' hmem h.symm)]
        exact hp''
    · intro k hk
      rw [hunfold, ih3 k (fun r' hr' => hk r' (List.mem_cons_of_mem _ hr'))]
      exact dictGet_insert_ne _ _ (hk r (List.mem_cons_self _ _))

/-- Claim C3 counterexample: saving a cart holding 5 of `P1` and reloading
it against a catalog where `P1` has stock 3 reproduces the cart entry, but
deducts nothing (the guarded `decrease_quantity` fails), so the catalog is
NOT reduced by the persisted sum 5: the stock stays 3 instead of 3 - 5. -/
theorem save_load_overdraw_counterexample :
    (load_cart_state [("P1", ⟨"P1", "W", 5, 3, ProductVariant.base⟩)] []
        (save_cart_state [("P1", (5 : Int))])).2 = [("P1", (5 : Int))] ∧
    (dictGet (load_cart_state [("P1", ⟨"P1", "W", 5, 3, ProductVariant.base⟩)] []
        (save_cart_state [("P1", (5 : Int))])).1 "P1").map
        Product.quantity_available = some 3 ∧
    (3 : Int) ≠ 3 - 5 := by
  decide

/-- Claim C3 (amended): saving the cart state and reloading it against the
same catalog reproduces an equivalent cart and deducts each persisted
quantity from its product, provided every persisted record has a distinct
product id present in the catalog and a quantity `q` with `0 ≤ q ≤` that
available stock of the product (true of carts built by the service);
catalog entries of other products are untouched. Without the bound, an
overdrawn record is still recreated in the cart but deducts nothing. -/
theorem save_load_roundtrip (catalog : List (String × Product))
    (items : List (String × Int))
    (hnd : (items.map Prod.fst).Nodup)
    (hok : ∀ it ∈ items, ∃ p, dictGet catalog it.1 = some p ∧
        0 ≤ it.2 ∧ it.2 ≤ p.quantity_available) :
    (load_cart_state catalog [] (save_cart_state items)).2 = items ∧
    (∀ it ∈ items, ∀ p, dictGet catalog it.1 = some p →
        dictGet (load_cart_state catalog [] (save_cart_state items)).1 it.1 =
          some { p with quantity_available := p.quantity_available - it.2 }) ∧
    (∀ k, (∀ it ∈ items, it.1 ≠ k) →
        dictGet (load_cart_state catalog [] (save_cart_state items)).1 k =
          dictGet catalog k) := by
  have hmap1 : (save_cart_state items).map CartRecord.product_id =
      items.map Prod.fst := by
    simp [save_cart_state]
  have hmem : ∀ r ∈ save_cart_state items,
      ∃ it ∈ items, r.product_id = it.1 ∧ r.quantity = it.2 := by
    intro r hr
    simp only [save_cart_state, List.mem_map] at hr
    obtain ⟨it, hit, hr2⟩ := hr
    exact ⟨it, hit, by rw [← hr2], by rw [← hr2]⟩
  obtain ⟨h1, h2, h3⟩ := load_aux_spec (save_cart_state items) catalog []
    (by rw [hmap1]; exact hnd)
    (fun r _ => rfl)
    (by
      intro r hr
      obtain ⟨it, hit, he1, he2⟩ := hmem r hr
      rw [he1, he2]
      exact hok it hit)
  refine ⟨?_, ?_, ?_⟩
  · rw [h1]
    have hcomp : ((fun r : CartRecord => (r.product_id, r.quantity)) ∘
        (fun it : String × Int =>
          ({ product_id := it.1, quantity := it.2 } : CartRecord))) = id := by
      funext it
      rfl
    simp [save_cart_state, List.map_map, hcomp]
  · intro it hit p hp
    have hr : (⟨it.1, it.2⟩ : CartRecord) ∈ save_cart_state items := by
      simp only [save_cart_state, List.mem_map]
      exact ⟨it, hit, rfl⟩
    exact h2 ⟨it.1, it.2⟩ hr p hp
  · intro k hk
    refine h3 k ?_
    intro r hr
    obtain ⟨it, hit, he1, _⟩ := hmem r hr
    rw [he1]
    exact hk it hit

/-- Claim C3 witness: a one-item cart (4 of `P1`, stock 10) reloads to the
same cart. -/
theorem save_load_roundtrip_witness :
    (load_cart_state [("P1", ⟨"P1", "W", 5, 10, ProductVariant.base⟩)] []
        (save_cart_state [("P1", (4 : Int))])).2 = [("P1", (4 : Int))] :=
  (save_load_roundtrip [("P1", ⟨"P1", "W", 5, 10, ProductVariant.base⟩)]
    [("P1", 4)] (by decide)
    (by
      intro it hit
      simp only [List.mem_singleton] at hit
      subst hit
      exact ⟨⟨"P1", "W", 5, 10, ProductVariant.base⟩, by decide, by decide,
        by decide⟩)).1

end Cart

